import Mathlib

/-!
# Verification of the LMCP sentinelizer framing protocol

Shallow embedding of `src/lib.rs` (`LmcpSentinelizer`): a byte-stream framing
layer that wraps a payload between four fixed 8-byte sentinels together with a
decimal length field and a decimal additive checksum field.

Bytes are modelled as `Nat` (the `u8` values 0–255); buffers are `List Nat`.
A Rust `Result<T, Error>` together with the possibility of a panic
(out-of-range slice index, `unwrap()` on a failed conversion) is modelled by
`PResult`: `ok`, `err`, or `fatal` (the Rust process abort).
`u32` arithmetic is modelled on `Nat` with explicit reduction modulo 2^32.
-/

namespace LmcpSentinelizer

/-- The error type for sentinel stream processing (`enum Error` in the source). -/
inductive Error where
  | SentinelNotFound
  | ChecksumVerifyError
deriving DecidableEq

/-- Outcome of a fallible Rust computation: `Ok`, `Err`, or a panic (`fatal`). -/
inductive PResult (α : Type) where
  | ok : α → PResult α
  | err : Error → PResult α
  | fatal : PResult α
deriving DecidableEq

/-- Sequencing of fallible steps: models Rust `?` on `Result`, with a panic in
any step aborting the whole computation. -/
def pbind {α β : Type} : PResult α → (α → PResult β) → PResult β
  | .ok a, f => f a
  | .err e, _ => .err e
  | .fatal, _ => .fatal

@[simp]
theorem pbind_ok {α β : Type} (a : α) (f : α → PResult β) : pbind (.ok a) f = f a := rfl

@[simp]
theorem pbind_err {α β : Type} (e : Error) (f : α → PResult β) :
    pbind (.err e) f = .err e := rfl

@[simp]
theorem pbind_fatal {α β : Type} (f : α → PResult β) :
    pbind (PResult.fatal : PResult α) f = .fatal := rfl

/-- `const BEFORE_PAYLOAD_SIZE: [u8; 8]` — the bytes of `+=+=+=+=`. -/
def BEFORE_PAYLOAD_SIZE : List Nat := [43, 61, 43, 61, 43, 61, 43, 61]

/-- `const AFTER_PAYLOAD_SIZE: [u8; 8]` — the bytes of `#@#@#@#@`. -/
def AFTER_PAYLOAD_SIZE : List Nat := [35, 64, 35, 64, 35, 64, 35, 64]

/-- `const BEFORE_CHECKSUM: [u8; 8]` — the bytes of `!%!%!%!%`. -/
def BEFORE_CHECKSUM : List Nat := [33, 37, 33, 37, 33, 37, 33, 37]

/-- `const AFTER_CHECKSUM: [u8; 8]` — the bytes of `?^?^?^?^`. -/
def AFTER_CHECKSUM : List Nat := [63, 94, 63, 94, 63, 94, 63, 94]

/-- 2^32, the modulus of Rust `u32` arithmetic. -/
def U32_MOD : Nat := 4294967296

/-- `fn calculate_checksum(data: &[u8]) -> u32`: fold of `sum += x as u32`
over the payload; the `u32` addition wraps modulo 2^32 (the documented wire
contract, i.e. release-mode Rust semantics). -/
def calculate_checksum (data : List Nat) : Nat :=
  data.foldl (fun s x => (s + x) % U32_MOD) 0

/-- Fuel-indexed decimal rendering; `natToDecimal` supplies enough fuel.
Structural recursion on the fuel keeps the definition kernel-reducible. -/
def natToDecimalFuel : Nat → Nat → List Nat
  | 0, _ => []
  | f + 1, n => if n < 10 then [48 + n] else natToDecimalFuel f (n / 10) ++ [48 + n % 10]

/-- Rust `n.to_string().as_bytes()` for an unsigned integer: canonical decimal
ASCII digits, most significant first, no leading zeros, no sign. -/
def natToDecimal (n : Nat) : List Nat := natToDecimalFuel (n + 1) n

/-- `fn create_sentinelized_stream(data: &[u8]) -> Vec<u8>`: the sequence of
`extend_from_slice` pushes, i.e. the concatenation of the six frame regions
around the payload. Total: the Rust function has no error path. -/
def create_sentinelized_stream (data : List Nat) : List Nat :=
  BEFORE_PAYLOAD_SIZE ++ natToDecimal data.length ++ AFTER_PAYLOAD_SIZE ++ data
    ++ BEFORE_CHECKSUM ++ natToDecimal (calculate_checksum data) ++ AFTER_CHECKSUM

/-- Rust `char::is_numeric(c as char)` for a byte `c` (so for code points
below 0x100): true on the ASCII digits 0x30–0x39 (category Nd) and on the six
Latin-1 numeric characters of category No — superscript one, two, three
(0xB9, 0xB2, 0xB3) and the vulgar fractions ¼ ½ ¾ (0xBC, 0xBD, 0xBE). -/
def is_numeric_byte (c : Nat) : Bool :=
  (decide (48 ≤ c) && decide (c ≤ 57)) || c == 178 || c == 179 || c == 185
    || c == 188 || c == 189 || c == 190

/-- The scanning loop of `get_numeric_val`: pop bytes from the front while
they satisfy `char::is_numeric`; the first non-numeric byte is pushed back
(`data.insert(0, c)`) and ends the loop. Returns (scanned token, rest). -/
def scan_numeric : List Nat → List Nat × List Nat
  | [] => ([], [])
  | c :: rest =>
    if is_numeric_byte c then
      let (v, r) := scan_numeric rest
      (c :: v, r)
    else ([], c :: rest)

/-- Value of a string of ASCII decimal digits, as `str::parse::<u32>` computes
it (most significant digit first). -/
def parseDigits (ds : List Nat) : Nat := ds.foldl (fun a c => a * 10 + (c - 48)) 0

/-- `fn get_numeric_val(data: Vec<u8>) -> Result<(u32, Vec<u8>), Error>`:
scan the numeric token, then `String::from_utf8(val).unwrap()` and
`val.parse::<u32>().unwrap()`.  The token holds only `is_numeric_byte` bytes;
among those, the ones ≥ 0x80 are bare UTF-8 continuation bytes, so the token
is valid UTF-8 exactly when every byte is below 0x80 (an ASCII digit).  The
parse then succeeds exactly when the token is non-empty and its value fits in
a `u32`.  Each failed `unwrap` is a panic, i.e. `fatal`. -/
def get_numeric_val (data : List Nat) : PResult (Nat × List Nat) :=
  let (val, rest) := scan_numeric data
  if val.all (fun c => decide (c < 128)) then
    if val = [] then .fatal
    else if parseDigits val < U32_MOD then .ok (parseDigits val, rest)
    else .fatal
  else .fatal

/-- `fn check_sentinel(data: Vec<u8>, sentinel: &[u8])`: the slice
`&data[..sentinel.len()]` panics when the buffer is shorter than the
sentinel; otherwise compare byte-for-byte and drain the sentinel on match. -/
def check_sentinel (data sentinel : List Nat) : PResult (List Nat) :=
  if sentinel.length ≤ data.length then
    if data.take sentinel.length = sentinel then .ok (data.drop sentinel.length)
    else .err .SentinelNotFound
  else .fatal

/-- `fn get_payload(data: Vec<u8>, len: usize)`: `data.drain(..len)` panics
when fewer than `len` bytes remain; otherwise split at `len`. -/
def get_payload (data : List Nat) (len : Nat) : PResult (List Nat × List Nat) :=
  if len ≤ data.length then .ok (data.take len, data.drop len) else .fatal

/-- `fn verify_checksum(payload: &[u8], chksum: u32)`. -/
def verify_checksum (payload : List Nat) (chksum : Nat) : PResult Unit :=
  if chksum = calculate_checksum payload then .ok () else .err .ChecksumVerifyError

/-- `fn parse_sentinelized_stream(data: Vec<u8>) -> Result<Vec<u8>, Error>`:
the six regions consumed in order, then the checksum comparison. -/
def parse_sentinelized_stream (data : List Nat) : PResult (List Nat) :=
  pbind (check_sentinel data BEFORE_PAYLOAD_SIZE) fun d1 =>
  pbind (get_numeric_val d1) fun lr =>
  pbind (check_sentinel lr.2 AFTER_PAYLOAD_SIZE) fun d2 =>
  pbind (get_payload d2 lr.1) fun pr =>
  pbind (check_sentinel pr.2 BEFORE_CHECKSUM) fun d3 =>
  pbind (get_numeric_val d3) fun cr =>
  pbind (check_sentinel cr.2 AFTER_CHECKSUM) fun _ =>
  pbind (verify_checksum pr.1 cr.1) fun _ =>
  .ok pr.1

/-- The payload of the repository's concrete test: `"ABCDEFGHIJKLMNOPQRSTUVWXY"`. -/
def TEST_PAYLOAD : List Nat :=
  [65, 66, 67, 68, 69, 70, 71, 72, 73, 74, 75, 76, 77, 78, 79, 80, 81, 82,
   83, 84, 85, 86, 87, 88, 89]

/-- The frame of the repository's concrete test:
`"+=+=+=+=25#@#@#@#@ABCDEFGHIJKLMNOPQRSTUVWXY!%!%!%!%1925?^?^?^?^"`. -/
def TEST_FRAME : List Nat :=
  [43, 61, 43, 61, 43, 61, 43, 61,
   50, 53,
   35, 64, 35, 64, 35, 64, 35, 64,
   65, 66, 67, 68, 69, 70, 71, 72, 73, 74, 75, 76, 77, 78, 79, 80, 81, 82,
   83, 84, 85, 86, 87, 88, 89,
   33, 37, 33, 37, 33, 37, 33, 37,
   49, 57, 50, 53,
   63, 94, 63, 94, 63, 94, 63, 94]

/-- Same frame with the checksum field changed from `1925` to `1926`. -/
def TEST_FRAME_BAD : List Nat :=
  [43, 61, 43, 61, 43, 61, 43, 61,
   50, 53,
   35, 64, 35, 64, 35, 64, 35, 64,
   65, 66, 67, 68, 69, 70, 71, 72, 73, 74, 75, 76, 77, 78, 79, 80, 81, 82,
   83, 84, 85, 86, 87, 88, 89,
   33, 37, 33, 37, 33, 37, 33, 37,
   49, 57, 50, 54,
   63, 94, 63, 94, 63, 94, 63, 94]

/-! ## Helper lemmas: decimal rendering -/

theorem natToDecimalFuel_congr (n : Nat) :
    ∀ f f', n < f → n < f' → natToDecimalFuel f n = natToDecimalFuel f' n := by
  induction n using Nat.strong_induction_on with
  | _ n ih =>
    intro f f' hf hf'
    cases f with
    | zero => omega
    | succ f =>
      cases f' with
      | zero => omega
      | succ f' =>
        simp only [natToDecimalFuel]
        split
        · rfl
        · rename_i h
          rw [ih (n / 10) (Nat.div_lt_self (by omega) (by norm_num)) f f'
            (by omega) (by omega)]

theorem natToDecimal_small {n : Nat} (h : n < 10) : natToDecimal n = [48 + n] := by
  simp [natToDecimal, natToDecimalFuel, h]

theorem natToDecimal_step {n : Nat} (h : 10 ≤ n) :
    natToDecimal n = natToDecimal (n / 10) ++ [48 + n % 10] := by
  have hd : n / 10 < n := Nat.div_lt_self (by omega) (by norm_num)
  show natToDecimalFuel (n + 1) n = natToDecimalFuel (n / 10 + 1) (n / 10) ++ [48 + n % 10]
  rw [show natToDecimalFuel (n + 1) n
      = if n < 10 then [48 + n] else natToDecimalFuel n (n / 10) ++ [48 + n % 10] from rfl]
  rw [if_neg (by omega)]
  rw [natToDecimalFuel_congr (n / 10) n (n / 10 + 1) hd (Nat.lt_succ_self _)]

theorem natToDecimal_ne_nil (n : Nat) : natToDecimal n ≠ [] := by
  by_cases h : n < 10
  · simp [natToDecimal_small h]
  · rw [natToDecimal_step (by omega)]
    simp

theorem natToDecimal_digits (n : Nat) :
    ∀ d ∈ natToDecimal n, 48 ≤ d ∧ d ≤ 57 := by
  induction n using Nat.strong_induction_on with
  | _ n ih =>
    by_cases h : n < 10
    · rw [natToDecimal_small h]
      intro d hd
      have : d = 48 + n := by simpa using hd
      omega
    · rw [natToDecimal_step (by omega)]
      intro d hd
      rcases List.mem_append.mp hd with hl | hr
      · exact ih (n / 10) (Nat.div_lt_self (by omega) (by norm_num)) d hl
      · have : d = 48 + n % 10 := by simpa using hr
        have : n % 10 < 10 := Nat.mod_lt _ (by norm_num)
        omega

theorem parseDigits_from (n : Nat) :
    ∀ a : Nat, (natToDecimal n).foldl (fun a c => a * 10 + (c - 48)) a
      = a * 10 ^ (natToDecimal n).length + n := by
  induction n using Nat.strong_induction_on with
  | _ n ih =>
    intro a
    by_cases h : n < 10
    · rw [natToDecimal_small h]
      simp only [List.foldl_cons, List.foldl_nil, List.length_cons, List.length_nil,
        Nat.zero_add, pow_one]
      omega
    · rw [natToDecimal_step (by omega)]
      rw [List.foldl_append]
      rw [ih (n / 10) (Nat.div_lt_self (by omega) (by norm_num)) a]
      simp only [List.foldl, List.length_append, List.length_singleton]
      have hmod : n % 10 < 10 := Nat.mod_lt _ (by norm_num)
      have : (a * 10 ^ (natToDecimal (n / 10)).length + n / 10) * 10 + (48 + n % 10 - 48)
          = a * (10 ^ (natToDecimal (n / 10)).length * 10) + (n / 10 * 10 + n % 10) := by
        ring_nf
        omega
      rw [this, Nat.div_add_mod' n 10]
      ring_nf

theorem parseDigits_natToDecimal (n : Nat) : parseDigits (natToDecimal n) = n := by
  have := parseDigits_from n 0
  simpa [parseDigits] using this

theorem parseDigits_zeros (k : Nat) (ds : List Nat) :
    parseDigits (List.replicate k 48 ++ ds) = parseDigits ds := by
  induction k with
  | zero => simp
  | succ k ih =>
    simpa [parseDigits, List.replicate_succ] using ih

/-! ## Helper lemmas: the numeric scanner -/

theorem is_numeric_byte_digit {d : Nat} (h1 : 48 ≤ d) (h2 : d ≤ 57) :
    is_numeric_byte d = true := by
  simp [is_numeric_byte]
  omega

theorem scan_append (xs : List Nat) (y : Nat) (t : List Nat)
    (hxs : ∀ x ∈ xs, is_numeric_byte x = true) (hy : is_numeric_byte y = false) :
    scan_numeric (xs ++ y :: t) = (xs, y :: t) := by
  induction xs with
  | nil => simp [scan_numeric, hy]
  | cons x xs ih =>
    have hx : is_numeric_byte x = true := hxs x (by simp)
    have ih' := ih (fun z hz => hxs z (by simp [hz]))
    simp only [List.cons_append, scan_numeric, hx, if_true, List.append_eq, ih']

theorem get_numeric_val_token (k n y : Nat) (t : List Nat)
    (hy : is_numeric_byte y = false) (hn : n < U32_MOD) :
    get_numeric_val (List.replicate k 48 ++ (natToDecimal n ++ y :: t))
      = .ok (n, y :: t) := by
  have hall : ∀ x ∈ List.replicate k 48 ++ natToDecimal n, is_numeric_byte x = true := by
    intro x hx
    rcases List.mem_append.mp hx with hl | hr
    · have := List.eq_of_mem_replicate hl
      subst this
      decide
    · have := natToDecimal_digits n x hr
      exact is_numeric_byte_digit this.1 this.2
  have hscan : scan_numeric (List.replicate k 48 ++ (natToDecimal n ++ y :: t))
      = (List.replicate k 48 ++ natToDecimal n, y :: t) := by
    rw [← List.append_assoc]
    exact scan_append _ y t hall hy
  have h128 : (List.replicate k 48 ++ natToDecimal n).all (fun c => decide (c < 128)) = true := by
    simp only [List.all_eq_true, decide_eq_true_eq]
    intro x hx
    rcases List.mem_append.mp hx with hl | hr
    · have := List.eq_of_mem_replicate hl
      omega
    · have := natToDecimal_digits n x hr
      omega
  have hne : List.replicate k 48 ++ natToDecimal n ≠ [] := by
    simp [natToDecimal_ne_nil n]
  have hval : parseDigits (List.replicate k 48 ++ natToDecimal n) = n := by
    rw [parseDigits_zeros, parseDigits_natToDecimal]
  simp only [get_numeric_val, hscan, h128, if_true, hne, if_neg, hval, hn, if_pos, reduceIte]

theorem get_numeric_val_overflow (n y : Nat) (t : List Nat)
    (hy : is_numeric_byte y = false) (hn : U32_MOD ≤ n) :
    get_numeric_val (natToDecimal n ++ y :: t) = .fatal := by
  have hall : ∀ x ∈ natToDecimal n, is_numeric_byte x = true := by
    intro x hx
    have := natToDecimal_digits n x hx
    exact is_numeric_byte_digit this.1 this.2
  have hscan : scan_numeric (natToDecimal n ++ y :: t) = (natToDecimal n, y :: t) :=
    scan_append _ y t hall hy
  have h128 : (natToDecimal n).all (fun c => decide (c < 128)) = true := by
    simp only [List.all_eq_true, decide_eq_true_eq]
    intro x hx
    have := natToDecimal_digits n x hx
    omega
  have hval : parseDigits (natToDecimal n) = n := parseDigits_natToDecimal n
  simp only [get_numeric_val, hscan, h128, if_true, natToDecimal_ne_nil n, if_neg, hval,
    Nat.not_lt.mpr hn, reduceIte]

/-! ## Helper lemmas: sentinels and payload extraction -/

theorem check_sentinel_here (s r : List Nat) : check_sentinel (s ++ r) s = .ok r := by
  simp [check_sentinel, List.take_left, List.drop_left, List.length_append, Nat.le_add_right]

theorem check_sentinel_ne (data s : List Nat) (hlen : s.length ≤ data.length)
    (hne : data.take s.length ≠ s) : check_sentinel data s = .err .SentinelNotFound := by
  simp [check_sentinel, hlen, hne]

theorem check_sentinel_short (data s : List Nat) (h : data.length < s.length) :
    check_sentinel data s = .fatal := by
  simp [check_sentinel, Nat.not_le.mpr h]

theorem get_payload_here (p r : List Nat) : get_payload (p ++ r) p.length = .ok (p, r) := by
  simp [get_payload, List.take_left, List.drop_left, List.length_append, Nat.le_add_right]

theorem calculate_checksum_lt (data : List Nat) : calculate_checksum data < U32_MOD := by
  cases data with
  | nil => simp [calculate_checksum, U32_MOD]
  | cons x l =>
    have : ∀ (l : List Nat) (a : Nat), a < U32_MOD →
        l.foldl (fun s x => (s + x) % U32_MOD) a < U32_MOD := by
      intro l
      induction l with
      | nil => intro a ha; simpa using ha
      | cons y l ih =>
        intro a _
        exact ih _ (Nat.mod_lt _ (by simp [U32_MOD]))
    simp only [calculate_checksum, List.foldl]
    exact this l _ (Nat.mod_lt _ (by simp [U32_MOD]))

/-! ## The frame evaluation lemmas -/

theorem gnv_len (k n : Nat) (r : List Nat) (hn : n < U32_MOD) :
    get_numeric_val (List.replicate k 48 ++ (natToDecimal n ++ (AFTER_PAYLOAD_SIZE ++ r)))
      = .ok (n, AFTER_PAYLOAD_SIZE ++ r) := by
  have := get_numeric_val_token k n 35 ([64, 35, 64, 35, 64, 35, 64] ++ r) (by decide) hn
  simpa [AFTER_PAYLOAD_SIZE] using this

theorem gnv_chk (m c : Nat) (s : List Nat) (hc : c < U32_MOD) :
    get_numeric_val (List.replicate m 48 ++ (natToDecimal c ++ (AFTER_CHECKSUM ++ s)))
      = .ok (c, AFTER_CHECKSUM ++ s) := by
  have := get_numeric_val_token m c 63 ([94, 63, 94, 63, 94, 63, 94] ++ s) (by decide) hc
  simpa [AFTER_CHECKSUM] using this

/-- Master evaluation lemma: a frame whose digit fields render `p.length` and
`checksum p` (each optionally padded with leading zero bytes) followed by any
trailing bytes decodes to exactly `p`, provided the length fits in a `u32`. -/
theorem parse_frame_general (p s : List Nat) (k m : Nat) (hp : p.length < U32_MOD) :
    parse_sentinelized_stream
      (BEFORE_PAYLOAD_SIZE ++ (List.replicate k 48 ++ (natToDecimal p.length
        ++ (AFTER_PAYLOAD_SIZE ++ (p ++ (BEFORE_CHECKSUM ++ (List.replicate m 48
        ++ (natToDecimal (calculate_checksum p) ++ (AFTER_CHECKSUM ++ s)))))))))
      = .ok p := by
  have h1 := check_sentinel_here BEFORE_PAYLOAD_SIZE
    (List.replicate k 48 ++ (natToDecimal p.length
      ++ (AFTER_PAYLOAD_SIZE ++ (p ++ (BEFORE_CHECKSUM ++ (List.replicate m 48
      ++ (natToDecimal (calculate_checksum p) ++ (AFTER_CHECKSUM ++ s))))))))
  have h2 := gnv_len k p.length
    (p ++ (BEFORE_CHECKSUM ++ (List.replicate m 48
      ++ (natToDecimal (calculate_checksum p) ++ (AFTER_CHECKSUM ++ s))))) hp
  have h3 := check_sentinel_here AFTER_PAYLOAD_SIZE
    (p ++ (BEFORE_CHECKSUM ++ (List.replicate m 48
      ++ (natToDecimal (calculate_checksum p) ++ (AFTER_CHECKSUM ++ s)))))
  have h4 := get_payload_here p
    (BEFORE_CHECKSUM ++ (List.replicate m 48
      ++ (natToDecimal (calculate_checksum p) ++ (AFTER_CHECKSUM ++ s))))
  have h5 := check_sentinel_here BEFORE_CHECKSUM
    (List.replicate m 48 ++ (natToDecimal (calculate_checksum p) ++ (AFTER_CHECKSUM ++ s)))
  have h6 := gnv_chk m (calculate_checksum p) s (calculate_checksum_lt p)
  have h7 := check_sentinel_here AFTER_CHECKSUM s
  simp only [parse_sentinelized_stream, h1, pbind_ok, h2, h3, h4, h5, h6, h7]
  simp [verify_checksum]

theorem parse_create_append (p s : List Nat) (hp : p.length < U32_MOD) :
    parse_sentinelized_stream (create_sentinelized_stream p ++ s) = .ok p := by
  have := parse_frame_general p s 0 0 hp
  simpa [create_sentinelized_stream, List.append_assoc] using this

theorem parse_create (p : List Nat) (hp : p.length < U32_MOD) :
    parse_sentinelized_stream (create_sentinelized_stream p) = .ok p := by
  have := parse_create_append p [] hp
  simpa using this

/-- A frame built from a payload whose length does not fit in a `u32` crashes
the decoder at the length-token `parse::<u32>().unwrap()`. -/
theorem parse_create_append_fatal (p s : List Nat) (hp : U32_MOD ≤ p.length) :
    parse_sentinelized_stream (create_sentinelized_stream p ++ s) = .fatal := by
  have h1 := check_sentinel_here BEFORE_PAYLOAD_SIZE
    (natToDecimal p.length ++ (AFTER_PAYLOAD_SIZE ++ (p ++ (BEFORE_CHECKSUM
      ++ (natToDecimal (calculate_checksum p) ++ (AFTER_CHECKSUM ++ s))))))
  have h2 : get_numeric_val (natToDecimal p.length ++ (AFTER_PAYLOAD_SIZE ++ (p
      ++ (BEFORE_CHECKSUM ++ (natToDecimal (calculate_checksum p)
      ++ (AFTER_CHECKSUM ++ s)))))) = .fatal := by
    have := get_numeric_val_overflow p.length 35
      ([64, 35, 64, 35, 64, 35, 64] ++ (p ++ (BEFORE_CHECKSUM
        ++ (natToDecimal (calculate_checksum p) ++ (AFTER_CHECKSUM ++ s)))))
      (by decide) hp
    simpa [AFTER_PAYLOAD_SIZE] using this
  have hshape : create_sentinelized_stream p ++ s
      = BEFORE_PAYLOAD_SIZE ++ (natToDecimal p.length ++ (AFTER_PAYLOAD_SIZE ++ (p
        ++ (BEFORE_CHECKSUM ++ (natToDecimal (calculate_checksum p)
        ++ (AFTER_CHECKSUM ++ s)))))) := by
    simp [create_sentinelized_stream, List.append_assoc]
  rw [hshape]
  simp only [parse_sentinelized_stream, h1, pbind_ok, h2, pbind_fatal]

/-! ## Single-byte mutation lemmas -/

theorem getD_set_self (l : List Nat) (i b : Nat) (h : i < l.length) :
    (l.set i b).getD i 0 = b := by
  simp [List.getD, List.getElem?_set_self, h]

theorem set_ne (l : List Nat) (i b : Nat) (h : i < l.length) (hb : b ≠ l.getD i 0) :
    l.set i b ≠ l := by
  intro heq
  apply hb
  rw [← getD_set_self l i b h, heq]

/-- A frame whose first 8 bytes form an 8-byte block other than the first
sentinel is rejected with `SentinelNotFound` at step 1. -/
theorem parse_bad_first (T rest : List Nat) (hT : T.length = 8)
    (hne : T ≠ BEFORE_PAYLOAD_SIZE) :
    parse_sentinelized_stream (T ++ rest) = .err .SentinelNotFound := by
  have hlen : BEFORE_PAYLOAD_SIZE.length ≤ (T ++ rest).length := by
    simp [BEFORE_PAYLOAD_SIZE, hT]
  have htake : (T ++ rest).take BEFORE_PAYLOAD_SIZE.length = T := by
    have h8 : BEFORE_PAYLOAD_SIZE.length = T.length := by simp [BEFORE_PAYLOAD_SIZE, hT]
    rw [h8, List.take_left]
  have h := check_sentinel_ne (T ++ rest) BEFORE_PAYLOAD_SIZE hlen (by rw [htake]; exact hne)
  simp only [parse_sentinelized_stream, h, pbind_err]

/-- A frame whose sentinel-after-length region is an 8-byte block other than
that sentinel, starting with a non-numeric byte, is rejected at step 3. -/
theorem parse_bad_second (n : Nat) (hn : n < U32_MOD) (y : Nat) (t rest : List Nat)
    (hy : is_numeric_byte y = false) (ht : t.length = 7)
    (hne : y :: t ≠ AFTER_PAYLOAD_SIZE) :
    parse_sentinelized_stream (BEFORE_PAYLOAD_SIZE ++ (natToDecimal n ++ (y :: (t ++ rest))))
      = .err .SentinelNotFound := by
  have h1 := check_sentinel_here BEFORE_PAYLOAD_SIZE (natToDecimal n ++ (y :: (t ++ rest)))
  have h2 : get_numeric_val (natToDecimal n ++ y :: (t ++ rest))
      = .ok (n, y :: (t ++ rest)) := by
    have := get_numeric_val_token 0 n y (t ++ rest) hy hn
    simpa using this
  have hlen : AFTER_PAYLOAD_SIZE.length ≤ (y :: (t ++ rest)).length := by
    simp [AFTER_PAYLOAD_SIZE, ht]
  have htake : (y :: (t ++ rest)).take AFTER_PAYLOAD_SIZE.length = y :: t := by
    have h8 : AFTER_PAYLOAD_SIZE.length = (y :: t).length := by
      simp [AFTER_PAYLOAD_SIZE, ht]
    rw [h8, show y :: (t ++ rest) = (y :: t) ++ rest from rfl, List.take_left]
  have h3 := check_sentinel_ne (y :: (t ++ rest)) AFTER_PAYLOAD_SIZE hlen
    (by rw [htake]; exact hne)
  simp only [parse_sentinelized_stream, h1, pbind_ok, h2, h3, pbind_err]

/-- A frame whose sentinel-before-checksum region is an 8-byte block other
than that sentinel is rejected at step 5. -/
theorem parse_bad_third (p : List Nat) (hp : p.length < U32_MOD) (T rest : List Nat)
    (hT : T.length = 8) (hne : T ≠ BEFORE_CHECKSUM) :
    parse_sentinelized_stream (BEFORE_PAYLOAD_SIZE ++ (natToDecimal p.length
      ++ (AFTER_PAYLOAD_SIZE ++ (p ++ (T ++ rest))))) = .err .SentinelNotFound := by
  have h1 := check_sentinel_here BEFORE_PAYLOAD_SIZE
    (natToDecimal p.length ++ (AFTER_PAYLOAD_SIZE ++ (p ++ (T ++ rest))))
  have h2 := gnv_len 0 p.length (p ++ (T ++ rest)) hp
  rw [List.replicate_zero, List.nil_append] at h2
  have h3 := check_sentinel_here AFTER_PAYLOAD_SIZE (p ++ (T ++ rest))
  have h4 := get_payload_here p (T ++ rest)
  have hlen : BEFORE_CHECKSUM.length ≤ (T ++ rest).length := by
    simp [BEFORE_CHECKSUM, hT]
  have htake : (T ++ rest).take BEFORE_CHECKSUM.length = T := by
    have h8 : BEFORE_CHECKSUM.length = T.length := by simp [BEFORE_CHECKSUM, hT]
    rw [h8, List.take_left]
  have h5 := check_sentinel_ne (T ++ rest) BEFORE_CHECKSUM hlen (by rw [htake]; exact hne)
  simp only [parse_sentinelized_stream, h1, pbind_ok, h2, h3, h4, h5, pbind_err]

/-- A frame whose trailing sentinel region is an 8-byte block other than that
sentinel, starting with a non-numeric byte, is rejected at step 7. -/
theorem parse_bad_fourth (p : List Nat) (hp : p.length < U32_MOD) (y : Nat) (t : List Nat)
    (hy : is_numeric_byte y = false) (ht : t.length = 7)
    (hne : y :: t ≠ AFTER_CHECKSUM) :
    parse_sentinelized_stream (BEFORE_PAYLOAD_SIZE ++ (natToDecimal p.length
      ++ (AFTER_PAYLOAD_SIZE ++ (p ++ (BEFORE_CHECKSUM
      ++ (natToDecimal (calculate_checksum p) ++ y :: t)))))) = .err .SentinelNotFound := by
  have h1 := check_sentinel_here BEFORE_PAYLOAD_SIZE
    (natToDecimal p.length ++ (AFTER_PAYLOAD_SIZE ++ (p ++ (BEFORE_CHECKSUM
      ++ (natToDecimal (calculate_checksum p) ++ y :: t)))))
  have h2 := gnv_len 0 p.length
    (p ++ (BEFORE_CHECKSUM ++ (natToDecimal (calculate_checksum p) ++ y :: t))) hp
  rw [List.replicate_zero, List.nil_append] at h2
  have h3 := check_sentinel_here AFTER_PAYLOAD_SIZE
    (p ++ (BEFORE_CHECKSUM ++ (natToDecimal (calculate_checksum p) ++ y :: t)))
  have h4 := get_payload_here p
    (BEFORE_CHECKSUM ++ (natToDecimal (calculate_checksum p) ++ y :: t))
  have h5 := check_sentinel_here BEFORE_CHECKSUM
    (natToDecimal (calculate_checksum p) ++ y :: t)
  have h6 : get_numeric_val (natToDecimal (calculate_checksum p) ++ y :: t)
      = .ok (calculate_checksum p, y :: t) := by
    have := get_numeric_val_token 0 (calculate_checksum p) y t hy (calculate_checksum_lt p)
    simpa using this
  have hlen : AFTER_CHECKSUM.length ≤ (y :: t).length := by simp [AFTER_CHECKSUM, ht]
  have htake : (y :: t).take AFTER_CHECKSUM.length = y :: t := by
    have h8 : AFTER_CHECKSUM.length = (y :: t).length := by simp [AFTER_CHECKSUM, ht]
    rw [h8, List.take_length]
  have h7 := check_sentinel_ne (y :: t) AFTER_CHECKSUM hlen (by rw [htake]; exact hne)
  simp only [parse_sentinelized_stream, h1, pbind_ok, h2, h3, h4, h5, h6, h7, pbind_err]

/-! ## Checksum characterisation -/

theorem checksum_eq_sum_mod (data : List Nat) :
    calculate_checksum data = data.sum % U32_MOD := by
  have key : ∀ (l : List Nat) (a : Nat),
      l.foldl (fun s x => (s + x) % U32_MOD) (a % U32_MOD) = (a + l.sum) % U32_MOD := by
    intro l
    induction l with
    | nil => intro a; simp
    | cons x l ih =>
      intro a
      simp only [List.foldl_cons, List.sum_cons]
      rw [Nat.mod_add_mod, ih (a + x), Nat.add_assoc]
  have := key data 0
  simpa [calculate_checksum] using this

/-! ## Claim theorems -/

/-- C1 counterexample: the claim quantifies over every byte sequence, but a
payload of length 2^32 produces a frame whose length token fails
`parse::<u32>().unwrap()`, so decoding it crashes instead of returning the
payload. -/
theorem C1_counterexample :
    parse_sentinelized_stream (create_sentinelized_stream (List.replicate U32_MOD 0))
      ≠ .ok (List.replicate U32_MOD 0) := by
  have h := parse_create_append_fatal (List.replicate U32_MOD 0) [] (by simp)
  rw [List.append_nil] at h
  simp [h]

/-- C1 (amended): for every byte sequence `p` whose length fits in a `u32`,
decoding the frame produced by encoding `p` succeeds and returns exactly `p`;
encoding the empty payload produces a frame whose length field is the single
byte `"0"` and whose checksum field is the single byte `"0"`, and decoding
that frame returns the empty payload. -/
theorem C1_round_trip (p : List Nat) (hp : p.length < U32_MOD) :
    parse_sentinelized_stream (create_sentinelized_stream p) = .ok p
      ∧ create_sentinelized_stream []
        = BEFORE_PAYLOAD_SIZE ++ [48] ++ AFTER_PAYLOAD_SIZE
          ++ BEFORE_CHECKSUM ++ [48] ++ AFTER_CHECKSUM
      ∧ parse_sentinelized_stream (create_sentinelized_stream []) = .ok [] :=
  ⟨parse_create p hp, by decide, by decide⟩

theorem C1_round_trip_witness :
    parse_sentinelized_stream (create_sentinelized_stream [65, 66, 67]) = .ok [65, 66, 67] :=
  (C1_round_trip [65, 66, 67] (by decide)).1

/-- C2: the reference decoder does NOT report truncated buffers or malformed
digit tokens as error values — it crashes (`fatal` models the Rust panic):
on the empty buffer the first sentinel slice is out of range; after a valid
first sentinel an empty digit token makes `parse::<u32>().unwrap()` panic;
a truncated payload region makes `drain(..len)` panic. -/
theorem C2_decode_crashes :
    parse_sentinelized_stream [] = .fatal
      ∧ parse_sentinelized_stream (BEFORE_PAYLOAD_SIZE ++ AFTER_PAYLOAD_SIZE) = .fatal
      ∧ parse_sentinelized_stream
          (BEFORE_PAYLOAD_SIZE ++ [49, 48] ++ AFTER_PAYLOAD_SIZE) = .fatal :=
  ⟨by decide, by decide, by decide⟩

/-- C3: `calculate_checksum p` is the sum of `p`'s bytes reduced modulo 2^32,
and two payloads whose byte-sums differ by exactly 2^32 have equal checksums.
(The function is a total fold with no failure mode.) -/
theorem C3_checksum_spec (p q : List Nat) :
    calculate_checksum p = p.sum % U32_MOD
      ∧ (p.sum = q.sum + U32_MOD → calculate_checksum p = calculate_checksum q) := by
  refine ⟨checksum_eq_sum_mod p, fun h => ?_⟩
  rw [checksum_eq_sum_mod p, checksum_eq_sum_mod q, h, Nat.add_mod_right]

theorem C3_checksum_spec_witness :
    (List.replicate 134217728 32).sum = ([] : List Nat).sum + U32_MOD
      ∧ calculate_checksum (List.replicate 134217728 32) = calculate_checksum [] := by
  have hsum : (List.replicate 134217728 32).sum = ([] : List Nat).sum + U32_MOD := by
    rw [List.sum_replicate, smul_eq_mul]
    rfl
  exact ⟨hsum, (C3_checksum_spec (List.replicate 134217728 32) []).2 hsum⟩

/-- C4 counterexample: the scanner is not restricted to ASCII digits — the
byte 0xB2 (superscript two, numeric under Rust `char::is_numeric`) is
consumed into the token, and the subsequent UTF-8 `unwrap` then crashes
`get_numeric_val`. -/
theorem C4_counterexample :
    (scan_numeric [178, 53]).1 = [178, 53]
      ∧ ¬ (48 ≤ 178 ∧ (178 : Nat) ≤ 57)
      ∧ get_numeric_val [178, 53] = .fatal :=
  ⟨by decide, by decide, by decide⟩

/-- C4 (amended): the digit-token scanner consumes exactly the maximal
leading run of bytes that Rust `char::is_numeric` accepts — the ASCII digits
0x30–0x39 together with the six Latin-1 numeric bytes 0xB2, 0xB3, 0xB9,
0xBC, 0xBD, 0xBE; the first byte outside that set terminates the scan and is
not consumed. -/
theorem C4_scanner_spec (data : List Nat) :
    scan_numeric data
      = (data.takeWhile is_numeric_byte, data.dropWhile is_numeric_byte) := by
  induction data with
  | nil => rfl
  | cons c rest ih =>
    by_cases h : is_numeric_byte c
    · simp [scan_numeric, h, List.takeWhile_cons, List.dropWhile_cons, ih]
    · simp [scan_numeric, h, List.takeWhile_cons, List.dropWhile_cons]

/-- C6: `create_sentinelized_stream p` is exactly the concatenation, in
order, of the four sentinels around the decimal length field, the verbatim
payload, and the decimal checksum field; on the 25-byte alphabet payload it
yields exactly the reference frame. -/
theorem C6_encode_structure (p : List Nat) :
    create_sentinelized_stream p
      = BEFORE_PAYLOAD_SIZE ++ natToDecimal p.length ++ AFTER_PAYLOAD_SIZE ++ p
        ++ BEFORE_CHECKSUM ++ natToDecimal (calculate_checksum p) ++ AFTER_CHECKSUM
      ∧ create_sentinelized_stream TEST_PAYLOAD = TEST_FRAME :=
  ⟨rfl, by decide⟩

/-- C7: on any buffer where all four sentinels match and both digit fields
parse, the decoder returns the payload exactly when the transmitted checksum
equals `calculate_checksum payload`, and fails with `ChecksumVerifyError`
exactly when they differ; decoding the reference frame with checksum `1926`
fails with `ChecksumVerifyError`. -/
theorem C7_checksum_gate (data d1 d3 d5 d7 : List Nat) (len chk : Nat)
    (payload rest2 rest4 rest6 : List Nat)
    (h1 : check_sentinel data BEFORE_PAYLOAD_SIZE = .ok d1)
    (h2 : get_numeric_val d1 = .ok (len, rest2))
    (h3 : check_sentinel rest2 AFTER_PAYLOAD_SIZE = .ok d3)
    (h4 : get_payload d3 len = .ok (payload, rest4))
    (h5 : check_sentinel rest4 BEFORE_CHECKSUM = .ok d5)
    (h6 : get_numeric_val d5 = .ok (chk, rest6))
    (h7 : check_sentinel rest6 AFTER_CHECKSUM = .ok d7) :
    (parse_sentinelized_stream data = .ok payload ↔ chk = calculate_checksum payload)
      ∧ (parse_sentinelized_stream data = .err .ChecksumVerifyError
          ↔ chk ≠ calculate_checksum payload)
      ∧ parse_sentinelized_stream TEST_FRAME_BAD = .err .ChecksumVerifyError := by
  have hparse : parse_sentinelized_stream data
      = if chk = calculate_checksum payload then .ok payload
        else .err .ChecksumVerifyError := by
    simp only [parse_sentinelized_stream, h1, pbind_ok, h2, h3, h4, h5, h6, h7,
      verify_checksum]
    by_cases hc : chk = calculate_checksum payload
    · simp [hc]
    · simp [hc]
  refine ⟨?_, ?_, by decide⟩
  · by_cases hc : chk = calculate_checksum payload <;> simp [hparse, hc]
  · by_cases hc : chk = calculate_checksum payload <;> simp [hparse, hc]

theorem C7_checksum_gate_witness :
    parse_sentinelized_stream TEST_FRAME = .ok TEST_PAYLOAD :=
  ((C7_checksum_gate TEST_FRAME (TEST_FRAME.drop 8) (TEST_FRAME.drop 18)
      (TEST_FRAME.drop 51) [] 25 1925 TEST_PAYLOAD (TEST_FRAME.drop 10)
      (TEST_FRAME.drop 43) (TEST_FRAME.drop 55)
      (by decide) (by decide) (by decide) (by decide) (by decide) (by decide)
      (by decide)).1).mpr (by decide)

/-- C8 counterexample: a buffer shorter than 8 bytes whose bytes are not the
first sentinel makes the slice `&data[..8]` panic, so the decoder crashes
instead of returning `SentinelNotFound`. -/
theorem C8_counterexample :
    parse_sentinelized_stream [43, 61, 43] ≠ .err .SentinelNotFound
      ∧ parse_sentinelized_stream [43, 61, 43] = .fatal :=
  ⟨by decide, by decide⟩

/-- C8 (amended): every input buffer of length at least 8 whose first 8 bytes
are not exactly `"+=+=+=+="` makes the decoder fail with `SentinelNotFound`
(shorter buffers instead crash the reference implementation). -/
theorem C8_bad_first_sentinel (data : List Nat) (hlen : 8 ≤ data.length)
    (hne : data.take 8 ≠ BEFORE_PAYLOAD_SIZE) :
    parse_sentinelized_stream data = .err .SentinelNotFound := by
  have h := check_sentinel_ne data BEFORE_PAYLOAD_SIZE
    (by simpa [BEFORE_PAYLOAD_SIZE] using hlen) (by simpa [BEFORE_PAYLOAD_SIZE] using hne)
  simp only [parse_sentinelized_stream, h, pbind_err]

theorem C8_bad_first_sentinel_witness :
    parse_sentinelized_stream [0, 0, 0, 0, 0, 0, 0, 0] = .err .SentinelNotFound :=
  C8_bad_first_sentinel [0, 0, 0, 0, 0, 0, 0, 0] (by decide) (by decide)

/-- C9 counterexample: for a payload of length 2^32 the decoder crashes on
the length token whether or not trailing bytes are appended, so the common
result is not the payload, contradicting the claim's "namely p". -/
theorem C9_counterexample :
    parse_sentinelized_stream
        (create_sentinelized_stream (List.replicate U32_MOD 1) ++ [0])
      ≠ .ok (List.replicate U32_MOD 1) := by
  have h := parse_create_append_fatal (List.replicate U32_MOD 1) [0] (by simp)
  simp [h]

/-- C9 (amended): for every payload `p` whose length fits in a `u32` and
every byte sequence `s`, decoding `encode(p) ++ s` gives the same result as
decoding `encode(p)` alone, namely `p`: trailing bytes are silently ignored. -/
theorem C9_trailing_ignored (p s : List Nat) (hp : p.length < U32_MOD) :
    parse_sentinelized_stream (create_sentinelized_stream p ++ s)
        = parse_sentinelized_stream (create_sentinelized_stream p)
      ∧ parse_sentinelized_stream (create_sentinelized_stream p ++ s) = .ok p := by
  have h1 := parse_create_append p s hp
  have h2 := parse_create p hp
  exact ⟨by rw [h1, h2], h1⟩

theorem C9_trailing_ignored_witness :
    parse_sentinelized_stream (create_sentinelized_stream [7] ++ [1, 2, 3]) = .ok [7] :=
  (C9_trailing_ignored [7] [1, 2, 3] (by decide)).2

/-- C10: frames identical to `encode(p)` except for extra `'0'` bytes
prepended to the length and/or checksum digit fields still decode to `p`,
because the digit fields are parsed by numeric value, not compared to the
canonical rendering. -/
theorem C10_leading_zeros (p : List Nat) (k m : Nat) (hp : p.length < U32_MOD) :
    parse_sentinelized_stream
      (BEFORE_PAYLOAD_SIZE ++ List.replicate k 48 ++ natToDecimal p.length
        ++ AFTER_PAYLOAD_SIZE ++ p ++ BEFORE_CHECKSUM ++ List.replicate m 48
        ++ natToDecimal (calculate_checksum p) ++ AFTER_CHECKSUM) = .ok p := by
  have := parse_frame_general p [] k m hp
  simpa [List.append_assoc] using this

theorem C10_leading_zeros_witness :
    parse_sentinelized_stream
      (BEFORE_PAYLOAD_SIZE ++ List.replicate 1 48 ++ natToDecimal (List.length [65])
        ++ AFTER_PAYLOAD_SIZE ++ [65] ++ BEFORE_CHECKSUM ++ List.replicate 2 48
        ++ natToDecimal (calculate_checksum [65]) ++ AFTER_CHECKSUM) = .ok [65] :=
  C10_leading_zeros [65] 1 2 (by decide)

/-- C5 counterexample: on the valid frame `encode([])`, mutating the FIRST
byte of the trailing sentinel to the ASCII digit `'1'` (byte 49) makes the
checksum scanner absorb it; the trailing sentinel check then slices 8 bytes
from the 7 that remain and the decoder crashes — it does not fail with
`SentinelNotFound` as the claim requires. -/
theorem C5_counterexample :
    parse_sentinelized_stream (BEFORE_PAYLOAD_SIZE ++ natToDecimal 0 ++ AFTER_PAYLOAD_SIZE
        ++ BEFORE_CHECKSUM ++ natToDecimal 0 ++ AFTER_CHECKSUM.set 0 49)
      ≠ .err .SentinelNotFound
    ∧ parse_sentinelized_stream (BEFORE_PAYLOAD_SIZE ++ natToDecimal 0 ++ AFTER_PAYLOAD_SIZE
        ++ BEFORE_CHECKSUM ++ natToDecimal 0 ++ AFTER_CHECKSUM.set 0 49) = .fatal
    ∧ create_sentinelized_stream []
      = BEFORE_PAYLOAD_SIZE ++ natToDecimal 0 ++ AFTER_PAYLOAD_SIZE
          ++ BEFORE_CHECKSUM ++ natToDecimal 0 ++ AFTER_CHECKSUM :=
  ⟨by decide, by decide, by decide⟩

/-- C5 (amended): for every payload `p` whose length fits in a `u32`, changing
any single byte of any of the four 8-byte sentinel regions of `encode(p)` to a
byte value that the digit scanner does not treat as numeric makes the decoder
fail with `SentinelNotFound`.  (A numeric replacement byte at the first
position of a sentinel that follows a digit field is absorbed into the digit
token and can instead crash the reference decoder, as the counterexample
shows.) -/
theorem C5_sentinel_mutation (p : List Nat) (i b : Nat) (hp : p.length < U32_MOD)
    (hi : i < 8) (hb : is_numeric_byte b = false) :
    (b ≠ BEFORE_PAYLOAD_SIZE.getD i 0 →
      parse_sentinelized_stream (BEFORE_PAYLOAD_SIZE.set i b ++ (natToDecimal p.length
        ++ (AFTER_PAYLOAD_SIZE ++ (p ++ (BEFORE_CHECKSUM
        ++ (natToDecimal (calculate_checksum p) ++ AFTER_CHECKSUM))))))
        = .err .SentinelNotFound)
    ∧ (b ≠ AFTER_PAYLOAD_SIZE.getD i 0 →
      parse_sentinelized_stream (BEFORE_PAYLOAD_SIZE ++ (natToDecimal p.length
        ++ (AFTER_PAYLOAD_SIZE.set i b ++ (p ++ (BEFORE_CHECKSUM
        ++ (natToDecimal (calculate_checksum p) ++ AFTER_CHECKSUM))))))
        = .err .SentinelNotFound)
    ∧ (b ≠ BEFORE_CHECKSUM.getD i 0 →
      parse_sentinelized_stream (BEFORE_PAYLOAD_SIZE ++ (natToDecimal p.length
        ++ (AFTER_PAYLOAD_SIZE ++ (p ++ (BEFORE_CHECKSUM.set i b
        ++ (natToDecimal (calculate_checksum p) ++ AFTER_CHECKSUM))))))
        = .err .SentinelNotFound)
    ∧ (b ≠ AFTER_CHECKSUM.getD i 0 →
      parse_sentinelized_stream (BEFORE_PAYLOAD_SIZE ++ (natToDecimal p.length
        ++ (AFTER_PAYLOAD_SIZE ++ (p ++ (BEFORE_CHECKSUM
        ++ (natToDecimal (calculate_checksum p) ++ AFTER_CHECKSUM.set i b))))))
        = .err .SentinelNotFound) := by
  refine ⟨?_, ?_, ?_, ?_⟩
  · intro hbne
    exact parse_bad_first (BEFORE_PAYLOAD_SIZE.set i b)
      (natToDecimal p.length ++ (AFTER_PAYLOAD_SIZE ++ (p ++ (BEFORE_CHECKSUM
        ++ (natToDecimal (calculate_checksum p) ++ AFTER_CHECKSUM)))))
      (by simp [BEFORE_PAYLOAD_SIZE])
      (set_ne BEFORE_PAYLOAD_SIZE i b (by simpa [BEFORE_PAYLOAD_SIZE] using hi) hbne)
  · intro hbne
    have hne2 := set_ne AFTER_PAYLOAD_SIZE i b (by simpa [AFTER_PAYLOAD_SIZE] using hi) hbne
    cases i with
    | zero =>
      have hset : AFTER_PAYLOAD_SIZE.set 0 b = b :: [64, 35, 64, 35, 64, 35, 64] := rfl
      rw [hset] at hne2 ⊢
      exact parse_bad_second p.length hp b [64, 35, 64, 35, 64, 35, 64]
        (p ++ (BEFORE_CHECKSUM ++ (natToDecimal (calculate_checksum p) ++ AFTER_CHECKSUM)))
        hb (by decide) hne2
    | succ j =>
      have hset : AFTER_PAYLOAD_SIZE.set (j + 1) b
          = 35 :: ([64, 35, 64, 35, 64, 35, 64].set j b) := rfl
      rw [hset] at hne2 ⊢
      exact parse_bad_second p.length hp 35 ([64, 35, 64, 35, 64, 35, 64].set j b)
        (p ++ (BEFORE_CHECKSUM ++ (natToDecimal (calculate_checksum p) ++ AFTER_CHECKSUM)))
        (by decide) (by simp) hne2
  · intro hbne
    exact parse_bad_third p hp (BEFORE_CHECKSUM.set i b)
      (natToDecimal (calculate_checksum p) ++ AFTER_CHECKSUM)
      (by simp [BEFORE_CHECKSUM])
      (set_ne BEFORE_CHECKSUM i b (by simpa [BEFORE_CHECKSUM] using hi) hbne)
  · intro hbne
    have hne4 := set_ne AFTER_CHECKSUM i b (by simpa [AFTER_CHECKSUM] using hi) hbne
    cases i with
    | zero =>
      have hset : AFTER_CHECKSUM.set 0 b = b :: [94, 63, 94, 63, 94, 63, 94] := rfl
      rw [hset] at hne4 ⊢
      exact parse_bad_fourth p hp b [94, 63, 94, 63, 94, 63, 94] hb (by decide) hne4
    | succ j =>
      have hset : AFTER_CHECKSUM.set (j + 1) b
          = 63 :: ([94, 63, 94, 63, 94, 63, 94].set j b) := rfl
      rw [hset] at hne4 ⊢
      exact parse_bad_fourth p hp 63 ([94, 63, 94, 63, 94, 63, 94].set j b)
        (by decide) (by simp) hne4

theorem C5_sentinel_mutation_witness :
    parse_sentinelized_stream (BEFORE_PAYLOAD_SIZE.set 0 65 ++ (natToDecimal 0
        ++ (AFTER_PAYLOAD_SIZE ++ ([] ++ (BEFORE_CHECKSUM
        ++ (natToDecimal 0 ++ AFTER_CHECKSUM)))))) = .err .SentinelNotFound
    ∧ parse_sentinelized_stream (BEFORE_PAYLOAD_SIZE ++ (natToDecimal 0
        ++ (AFTER_PAYLOAD_SIZE.set 0 65 ++ ([] ++ (BEFORE_CHECKSUM
        ++ (natToDecimal 0 ++ AFTER_CHECKSUM)))))) = .err .SentinelNotFound
    ∧ parse_sentinelized_stream (BEFORE_PAYLOAD_SIZE ++ (natToDecimal 0
        ++ (AFTER_PAYLOAD_SIZE ++ ([] ++ (BEFORE_CHECKSUM.set 0 65
        ++ (natToDecimal 0 ++ AFTER_CHECKSUM)))))) = .err .SentinelNotFound
    ∧ parse_sentinelized_stream (BEFORE_PAYLOAD_SIZE ++ (natToDecimal 0
        ++ (AFTER_PAYLOAD_SIZE ++ ([] ++ (BEFORE_CHECKSUM
        ++ (natToDecimal 0 ++ AFTER_CHECKSUM.set 0 65)))))) = .err .SentinelNotFound := by
  have h := C5_sentinel_mutation [] 0 65 (by decide) (by decide) (by decide)
  exact ⟨h.1 (by decide), h.2.1 (by decide), h.2.2.1 (by decide), h.2.2.2 (by decide)⟩

end LmcpSentinelizer
